import Mathlib

/-!
Verification of the `EditMaintenanceForm` component
(`src/src/components/EditMaintenanceForm.tsx`).

Modelling conventions for the shallow embedding:
* JavaScript numbers held in record fields are modelled by their decimal
  string rendering (`(45.5).toString()` is `"45.5"`); `toString` on a number
  never produces the empty string.  The integer identifiers `id` and
  `vehicle_id` are modelled as `Int`.
* JavaScript `null`/`undefined` for optional record fields is modelled by
  `Option`.
* The JS expression `x || d` on strings (falsy on `null`, `undefined` and
  `""`) is modelled by `jsOr`.
* `new Date(s).toISOString().split('T')[0]` is modelled as extracting the
  calendar-date prefix of an ISO UTC string: everything before the first
  `T` character (`isoDatePart`).
* The component's React state (`isSubmitting`, `formError`, `formData`) and
  the router effects (`router.push`, `router.refresh`) are gathered into an
  explicit `ComponentState`, and `handleSubmit` becomes a function from that
  state and the outcome of the awaited `updateMaintenanceRecord` call to a
  new state.
-/

/-- JS string-or-default: `x || d`, where `x` may be `null`/`undefined`
(`none`) and the empty string is falsy. -/
def jsOr : Option String → String → String
  | none, d => d
  | some s, d => if s = "" then d else s

/-- The calendar-date prefix of an ISO string: models
`new Date(s).toISOString().split('T')[0]`, i.e. the part of the string
before the first `T`. -/
def isoDatePart (s : String) : String :=
  String.mk (s.data.takeWhile (fun c => c ≠ 'T'))

/-- Display transform for the two date fields of the record
(`r.x ? new Date(r.x).toISOString().split('T')[0] : ''`): the JS ternary is
falsy on `null`/`undefined`/`""`. -/
def dateDisplay : Option String → String
  | none => ""
  | some s => if s = "" then "" else isoDatePart s

/-- A runtime JS value stored in a `formData` field: the identifiers start
out as numbers (`maintenanceRecord.id`, `maintenanceRecord.vehicle_id`),
every other field and every edited field holds a string. -/
inductive JSVal where
  | num (n : Int)
  | str (s : String)
deriving DecidableEq, Repr

/-- String coercion of a form field value, as `value?.toString() || ''`
performs it: a number renders in decimal (never empty), a string is kept
(an empty string stays empty). -/
def jsValToString : JSVal → String
  | .num n => toString n
  | .str s => s

/-- `MaintenanceRecord` (external read-only input of the component).
Optional fields are `Option`; dates are ISO strings; `cost` is a JS number
modelled by its decimal rendering. -/
structure MaintenanceRecord where
  id : Int
  vehicle_id : Int
  service_type : Option String
  description : Option String
  date_performed : Option String
  next_due_date : Option String
  cost : Option String
  status : Option String
  service_provider : Option String
  notes : Option String
deriving DecidableEq, Repr

/-- The component's `formData` object.  `id` and `vehicle_id` are copied
from the record without transformation and hence can hold a number; every
other field is initialised to a string. -/
structure FormState where
  id : JSVal
  vehicle_id : JSVal
  service_type : String
  description : String
  date_performed : String
  next_due_date : String
  cost : String
  status : String
  service_provider : String
  notes : String
deriving DecidableEq, Repr

/-- The `useState` initializer of `formData` (lines 28–39 of the source). -/
def initFormState (r : MaintenanceRecord) : FormState :=
  { id := .num r.id
    vehicle_id := .num r.vehicle_id
    service_type := jsOr r.service_type ""
    description := jsOr r.description ""
    date_performed := dateDisplay r.date_performed
    next_due_date := dateDisplay r.next_due_date
    cost := jsOr r.cost "0"
    status := jsOr r.status "scheduled"
    service_provider := jsOr r.service_provider ""
    notes := jsOr r.notes "" }

/-- The field names of `formData`, i.e. the possible values of `name` in
`handleChange` / the keys enumerated by `Object.entries(formData)`. -/
inductive FieldName where
  | id
  | vehicle_id
  | service_type
  | description
  | date_performed
  | next_due_date
  | cost
  | status
  | service_provider
  | notes
deriving DecidableEq, Repr

/-- Read one field of `formData` as the JS value it holds. -/
def getField (f : FormState) : FieldName → JSVal
  | .id => f.id
  | .vehicle_id => f.vehicle_id
  | .service_type => .str f.service_type
  | .description => .str f.description
  | .date_performed => .str f.date_performed
  | .next_due_date => .str f.next_due_date
  | .cost => .str f.cost
  | .status => .str f.status
  | .service_provider => .str f.service_provider
  | .notes => .str f.notes

/-- `handleChange` (lines 57–63): `setFormData(prev => ({ ...prev, [name]:
value }))`.  Input events always deliver string values, so the named field
is replaced by the string `value` and every other field is spread through
unchanged. -/
def handleChange (f : FormState) (name : FieldName) (value : String) : FormState :=
  match name with
  | .id => { f with id := .str value }
  | .vehicle_id => { f with vehicle_id := .str value }
  | .service_type => { f with service_type := value }
  | .description => { f with description := value }
  | .date_performed => { f with date_performed := value }
  | .next_due_date => { f with next_due_date := value }
  | .cost => { f with cost := value }
  | .status => { f with status := value }
  | .service_provider => { f with service_provider := value }
  | .notes => { f with notes := value }

/-- The transport key used for a field in the outgoing `FormData` object. -/
def fieldKey : FieldName → String
  | .id => "id"
  | .vehicle_id => "vehicle_id"
  | .service_type => "service_type"
  | .description => "description"
  | .date_performed => "date_performed"
  | .next_due_date => "next_due_date"
  | .cost => "cost"
  | .status => "status"
  | .service_provider => "service_provider"
  | .notes => "notes"

/-- Insertion order of the fields of the `formData` object literal, which is
the iteration order of `Object.entries(formData)`. -/
def fieldOrder : List FieldName :=
  [.id, .vehicle_id, .service_type, .description, .date_performed,
   .next_due_date, .cost, .status, .service_provider, .notes]

/-- The outgoing payload built in `handleSubmit` (lines 72–81):
`Object.entries(formData).forEach(([key, value]) =>
formDataObj.append(key, value?.toString() || ''))`.  Since no `formData`
field is ever `null`/`undefined`, `value?.toString() || ''` is exactly
`jsValToString`. -/
def buildPayload (f : FormState) : List (String × String) :=
  fieldOrder.map (fun n => (fieldKey n, jsValToString (getField f n)))

/-- The result object returned by `updateMaintenanceRecord`: a success flag
and an optional message. -/
structure UpdateResult where
  success : Bool
  message : Option String
deriving DecidableEq, Repr

/-- Outcome of awaiting the `updateMaintenanceRecord` call: either a result
object, or a thrown (transport/unexpected) error. -/
inductive CallOutcome where
  | returned (r : UpdateResult)
  | thrown
deriving DecidableEq, Repr

/-- Component state visible to the submit path: the two `useState` flags,
the form data, and the router effects (`navigations` logs each
`router.push` target in order; `refreshed` records whether
`router.refresh()` has been called). -/
structure ComponentState where
  isSubmitting : Bool
  formError : Option String
  formData : FormState
  navigations : List String
  refreshed : Bool
deriving DecidableEq, Repr

/-- The fallback banner text of the explicit-failure branch. -/
def updateErrorFallback : String :=
  "An error occurred while updating the maintenance record"

/-- The fallback banner text of the catch branch. -/
def unexpectedErrorFallback : String :=
  "An unexpected error occurred. Please try again."

/-- The fixed listing route pushed on success. -/
def maintenanceRoute : String := "/dashboard/maintenance"

/-- Prefix of `handleSubmit` executed synchronously before the call:
`setIsSubmitting(true); setFormError(null)`. -/
def beginSubmit (s : ComponentState) : ComponentState :=
  { s with isSubmitting := true, formError := none }

/-- Continuation of `handleSubmit` after the awaited call (lines 83–95):
on `result.success`, `router.push('/dashboard/maintenance')` then
`router.refresh()`; otherwise `setFormError(result.message || fallback)`
and `setIsSubmitting(false)`; on a thrown error, `setFormError(generic)`
and `setIsSubmitting(false)`. -/
def finishSubmit (s : ComponentState) (o : CallOutcome) : ComponentState :=
  match o with
  | .returned r =>
      if r.success then
        { s with navigations := s.navigations ++ [maintenanceRoute],
                 refreshed := true }
      else
        { s with formError := some (jsOr r.message updateErrorFallback),
                 isSubmitting := false }
  | .thrown =>
      { s with formError := some unexpectedErrorFallback,
               isSubmitting := false }

/-- `handleSubmit` (lines 66–96) as a whole, for a given outcome of the
single awaited call. -/
def handleSubmit (s : ComponentState) (o : CallOutcome) : ComponentState :=
  finishSubmit (beginSubmit s) o

/-- The `disabled` attribute of the submit button (line 292:
`disabled={isSubmitting}`). -/
def submitDisabled (s : ComponentState) : Bool :=
  s.isSubmitting

/-- A user click on the submit button: a disabled button fires no submit
event, so the state is unchanged; otherwise `handleSubmit` runs. -/
def clickSubmit (s : ComponentState) (o : CallOutcome) : ComponentState :=
  if submitDisabled s then s else handleSubmit s o

/-- Spec-side display transform for a date field, modelled from the spec:
"date fields → rendered as `YYYY-MM-DD` if present, otherwise empty
string" — a present, valid calendar-date string renders as itself. -/
def specDateOrEmpty : Option String → String
  | none => ""
  | some s => s

/-- A well-formed optional date field of an input record: absent, or a
non-empty calendar-date string (no time component, i.e. already its own
ISO date part). -/
def validDateField : Option String → Bool
  | none => true
  | some s => !s.isEmpty && (isoDatePart s == s)

/-- Whether a `formData` field value is a display string. -/
def isDisplayString : JSVal → Bool
  | .num _ => false
  | .str _ => true

/-- Which fields of `formData` hold a display string right after
initialization: all of them except `id` and `vehicle_id`, which are copied
from the record as numbers. -/
def fieldInitIsString : FieldName → Bool
  | .id => false
  | .vehicle_id => false
  | _ => true

/-- The scenario record of the spec: `{id:7, vehicle_id:3,
service_type:"Oil Change", next_due_date:"2024-05-01", cost:45.5,
status:"completed"}` (remaining fields absent). -/
def rec7 : MaintenanceRecord :=
  { id := 7
    vehicle_id := 3
    service_type := some "Oil Change"
    description := none
    date_performed := none
    next_due_date := some "2024-05-01"
    cost := some "45.5"
    status := some "completed"
    service_provider := none
    notes := none }

/-- A concrete freshly-mounted component state for the scenario record. -/
def s0 : ComponentState :=
  { isSubmitting := false
    formError := none
    formData := initFormState rec7
    navigations := []
    refreshed := false }

/-- `x || d` agrees with `Option.getD` whenever the present value is not the
empty string. -/
theorem jsOr_eq_getD (o : Option String) (d : String) (h : o ≠ some "") :
    jsOr o d = o.getD d := by
  cases o with
  | none => rfl
  | some s =>
      have hs : s ≠ "" := by intro hs; exact h (by rw [hs])
      simp [jsOr, hs]

/-- With an empty default, `x || ''` is exactly `Option.getD` on strings. -/
theorem jsOr_empty_default (o : Option String) : jsOr o "" = o.getD "" := by
  cases o with
  | none => rfl
  | some s =>
      by_cases hs : s = "" <;> simp [jsOr, hs]

/-- On a well-formed optional date field, the code's display transform
renders the calendar-date string itself (or the empty string if absent). -/
theorem dateDisplay_eq_spec (o : Option String) (h : validDateField o = true) :
    dateDisplay o = specDateOrEmpty o := by
  cases o with
  | none => rfl
  | some s =>
      have h1 : s.isEmpty = false ∧ isoDatePart s = s := by
        simpa [validDateField] using h
      have hne : s ≠ "" := by
        intro hs
        rw [hs] at h1
        exact absurd h1.1 (by decide)
      simp [dateDisplay, specDateOrEmpty, hne, h1.2]

/-- C1: for every well-formed input maintenance record, the initial
`FormState` equals the record's fields after the documented display
transforms — date fields render as their calendar-date string if present
and as the empty string otherwise; cost renders as its string form,
defaulting to "0" if absent; status defaults to "scheduled" if absent;
text/enum fields pass through, defaulting to the empty string if absent.
Well-formedness: dates are absent or non-empty calendar-date strings, and
cost and status (a number rendering resp. an enum value) are never the
empty string. -/
theorem initFormState_matches_display_transforms (r : MaintenanceRecord)
    (hdp : validDateField r.date_performed = true)
    (hnd : validDateField r.next_due_date = true)
    (hc : r.cost ≠ some "")
    (hst : r.status ≠ some "") :
    (initFormState r).date_performed = specDateOrEmpty r.date_performed
  ∧ (initFormState r).next_due_date = specDateOrEmpty r.next_due_date
  ∧ (initFormState r).cost = r.cost.getD "0"
  ∧ (initFormState r).status = r.status.getD "scheduled"
  ∧ (initFormState r).service_type = r.service_type.getD ""
  ∧ (initFormState r).description = r.description.getD ""
  ∧ (initFormState r).service_provider = r.service_provider.getD ""
  ∧ (initFormState r).notes = r.notes.getD "" :=
  ⟨dateDisplay_eq_spec _ hdp, dateDisplay_eq_spec _ hnd,
   jsOr_eq_getD _ _ hc, jsOr_eq_getD _ _ hst,
   jsOr_empty_default _, jsOr_empty_default _,
   jsOr_empty_default _, jsOr_empty_default _⟩

/-- C1 witness: the spec's scenario record `rec7` satisfies the
well-formedness hypotheses, and its initial cost field is "45.5" and its
initial next-due-date field is "2024-05-01". -/
theorem initFormState_matches_display_transforms_witness :
    (initFormState rec7).cost = "45.5"
  ∧ (initFormState rec7).next_due_date = "2024-05-01" := by
  have h := initFormState_matches_display_transforms rec7
    (by decide) (by decide) (by decide) (by decide)
  exact ⟨h.2.2.1, h.2.1⟩

/-- C2: the submit payload contains exactly the ten documented keys, in the
object's insertion order, and the value filed under each key is the string
coercion of the corresponding `formData` field (a field that is
`null`/`undefined` would be sent as the empty string; no `formData` field
ever is, and an empty string field is sent as the empty string). -/
theorem buildPayload_keys_and_values (f : FormState) :
    (buildPayload f).map Prod.fst =
      ["id", "vehicle_id", "service_type", "description", "date_performed",
       "next_due_date", "cost", "status", "service_provider", "notes"]
  ∧ ∀ n : FieldName, (buildPayload f).lookup (fieldKey n) =
      some (jsValToString (getField f n)) := by
  refine ⟨rfl, ?_⟩
  intro n
  cases n <;> rfl

/-- C3 counterexample: a failure result carrying the message string "" does
not display "" — JS `||` treats the empty string as falsy, so the banner
shows the fallback text instead. -/
theorem failure_empty_message_shows_fallback :
    (handleSubmit s0 (.returned ⟨false, some ""⟩)).formError ≠ some "" := by
  decide

/-- C3 (amended): for every failure result carrying a non-empty message
string X the banner displays exactly X; for a failure result carrying no
message, or the empty-string message, it displays the generic fallback
text; in all these cases the submit control becomes enabled again. -/
theorem failure_banner_shows_message (s : ComponentState) (X : String)
    (hX : X ≠ "") :
    (handleSubmit s (.returned ⟨false, some X⟩)).formError = some X
  ∧ (handleSubmit s (.returned ⟨false, some X⟩)).isSubmitting = false
  ∧ (handleSubmit s (.returned ⟨false, none⟩)).formError =
      some updateErrorFallback
  ∧ (handleSubmit s (.returned ⟨false, none⟩)).isSubmitting = false
  ∧ (handleSubmit s (.returned ⟨false, some ""⟩)).formError =
      some updateErrorFallback
  ∧ (handleSubmit s (.returned ⟨false, some ""⟩)).isSubmitting = false := by
  refine ⟨?_, rfl, rfl, rfl, by simp [handleSubmit, beginSubmit, finishSubmit, jsOr], rfl⟩
  simp [handleSubmit, beginSubmit, finishSubmit, jsOr, hX]

/-- C3 witness: the scenario result `{success:false, message:"Vehicle not
found"}` yields banner text exactly "Vehicle not found" and re-enables the
submit control. -/
theorem failure_banner_shows_message_witness :
    (handleSubmit s0 (.returned ⟨false, some "Vehicle not found"⟩)).formError =
      some "Vehicle not found"
  ∧ (handleSubmit s0 (.returned ⟨false, some "Vehicle not found"⟩)).isSubmitting =
      false := by
  have h := failure_banner_shows_message s0 "Vehicle not found" (by decide)
  exact ⟨h.1, h.2.1⟩

/-- C4 counterexample: the outcome of a thrown error is not identical to
that of an explicit failure result with no message — the two branches
display different fallback texts ("An unexpected error occurred. Please
try again." versus "An error occurred while updating the maintenance
record"). -/
theorem thrown_banner_differs_from_failure_banner :
    (handleSubmit s0 CallOutcome.thrown).formError ≠
      (handleSubmit s0 (.returned ⟨false, none⟩)).formError := by
  decide

/-- C4 (amended): a thrown error during the call produces exactly the state
of an explicit failure result with no message except for the banner text,
which is the catch branch's own generic fallback; in particular the
submitting state is cleared and the form data is untouched. -/
theorem thrown_matches_failure_except_text (s : ComponentState) :
    handleSubmit s .thrown =
      { handleSubmit s (.returned ⟨false, none⟩) with
        formError := some unexpectedErrorFallback } :=
  rfl

/-- C5: on a success result, the listing route is pushed exactly once (the
navigation log grows by exactly that one entry), a refresh of the route's
cached data is requested, and no error banner is shown. -/
theorem success_navigates_and_refreshes (s : ComponentState) (m : Option String) :
    (handleSubmit s (.returned ⟨true, m⟩)).navigations =
      s.navigations ++ [maintenanceRoute]
  ∧ (handleSubmit s (.returned ⟨true, m⟩)).refreshed = true
  ∧ (handleSubmit s (.returned ⟨true, m⟩)).formError = none :=
  ⟨rfl, rfl, rfl⟩

/-- C6: `handleChange` replaces exactly the named field with the new value
and leaves every other field of `FormState` unchanged. -/
theorem handleChange_updates_only_named_field (f : FormState)
    (n n2 : FieldName) (v : String) :
    getField (handleChange f n v) n2 =
      if n2 = n then .str v else getField f n2 := by
  cases n <;> cases n2 <;> simp [handleChange, getField]

/-- C7: a submission that ends in failure (explicit failure result or
thrown error) leaves `formData` exactly as it was before the submission,
and the submit control re-enables. -/
theorem failed_submit_preserves_form_data (s : ComponentState) (m : Option String) :
    (handleSubmit s (.returned ⟨false, m⟩)).formData = s.formData
  ∧ (handleSubmit s (.returned ⟨false, m⟩)).isSubmitting = false
  ∧ (handleSubmit s .thrown).formData = s.formData
  ∧ (handleSubmit s .thrown).isSubmitting = false :=
  ⟨rfl, rfl, rfl, rfl⟩

/-- C8 counterexample: in the initial `FormState` for the scenario record,
the identifier field holds the number 7 copied straight from the record,
not a display string. -/
theorem initFormState_id_is_not_a_string :
    isDisplayString (getField (initFormState rec7) FieldName.id) = false :=
  rfl

/-- C8 (amended): at initialization every field except the identifier and
vehicle-reference fields (which are copied from the record as numbers)
holds a display string, and every field edit stores a display string, so
the string representation of each field is preserved by edits and
established for the identifier fields once they are edited. -/
theorem string_fields_after_init_and_edits (r : MaintenanceRecord) (n : FieldName) :
    isDisplayString (getField (initFormState r) n) = fieldInitIsString n
  ∧ ∀ (f : FormState) (v : String) (n2 : FieldName),
      isDisplayString (getField (handleChange f n v) n2) =
        if n2 = n then true else isDisplayString (getField f n2) := by
  constructor
  · cases n <;> rfl
  · intro f v n2
    cases n <;> cases n2 <;> simp [handleChange, getField, isDisplayString]

/-- C9: while a submission is in flight the submit control is disabled, and
a click on the disabled control is a no-op, so a second click while the
first submission is outstanding changes nothing. -/
theorem inflight_click_is_noop (s : ComponentState) (o : CallOutcome) :
    submitDisabled (beginSubmit s) = true
  ∧ clickSubmit (beginSubmit s) o = beginSubmit s :=
  ⟨rfl, by simp [clickSubmit, submitDisabled, beginSubmit]⟩

/-- C10: only the failure and thrown-error branches reset the submitting
state; the success branch leaves it set, so after a successful submission
the submit control stays disabled until navigation tears the component
down. -/
theorem success_keeps_submitting_state (s : ComponentState) (m : Option String) :
    (handleSubmit s (.returned ⟨true, m⟩)).isSubmitting = true
  ∧ (handleSubmit s (.returned ⟨false, m⟩)).isSubmitting = false
  ∧ (handleSubmit s .thrown).isSubmitting = false :=
  ⟨rfl, rfl, rfl⟩
